import Mathlib

/-!
Shallow embedding of the Image Lifecycle Governance Engine of the
smart-container-registry backend:

* `app/services/rule_engine.py` — the rule matcher and per-image evaluation
  (`RuleEngine._matches_rule`, `_check_age_rule`, `_check_modified_rule`,
  `_check_count_rule`, `_check_tag_rule`, `_check_size_rule`,
  `evaluate_image`);
* `app/workers/rule_evaluation_worker.py` — the in-memory deletion-proposal
  store (`_create_deletion_proposal`, `approve_deletion_proposal`,
  `reject_deletion_proposal`);
* `app/external/registry_client.py` and `app/services/registry_service.py` —
  the whole-image deletion executor (`delete_entire_image` in both layers).

Timestamps are modelled as integers (epoch seconds), and a parsed datetime
additionally records whether it is timezone-aware, because the age/modified
checks behave differently on aware dates; Python dict lookups with
`.get(key, default)` are modelled as structure fields already carrying the
looked-up value.
-/

namespace SmartRegistry

/-- Python's case conversion `str.lower()` on ASCII data, character by
character. -/
def pyLower (s : String) : String := ⟨s.data.map Char.toLower⟩

/-- Python's substring test `needle in hay` on strings: `True` iff `needle`
occurs contiguously in `hay` (the empty needle always occurs). -/
def strContains (hay needle : String) : Bool :=
  decide (List.IsInfix needle.data hay.data)

/-! ## Rule matcher (`app/services/rule_engine.py`)

The `conditions` column of a rule is a loosely-typed JSON dict; the matcher
reads it only through `conditions.get(key, default)`.  `Conditions` therefore
records, for each key the matcher reads, the value that lookup produces
(the Python default when the key is absent). -/

/-- The condition payload of a rule, after the `dict.get` defaults of
`rule_engine.py` have been applied: `max_age_days` defaults to 30,
`keep_count` to 10, `max_size_mb` to 1000 and the three tag lists to `[]`. -/
structure Conditions where
  max_age_days : Int
  keep_count : Int
  max_size_mb : Int
  exclude_tags : List String
  required_patterns : List String
  tag_patterns : List String
deriving Repr, DecidableEq

/-- A datetime produced by `RuleEngine._parse_date`: the instant it denotes
(epoch seconds, reading naive datetimes as UTC wall-clock, which is what
`datetime.utcnow()` produces) together with whether the parsed value is
timezone-aware (`tzinfo` set — the `%z` formats and the
`replace('Z', '+00:00')` preprocessing produce aware datetimes for any
offset-carrying string). -/
structure ParsedDate where
  epoch : Int
  aware : Bool
deriving Repr, DecidableEq

/-- The `image_data` dict handed to `RuleEngine.evaluate_image` by
`RuleEvaluationWorker.evaluate_all_images`.  `created_at` and
`last_modified` are `none` when the timestamp is absent or unparseable
(`_parse_date` returned `None`); otherwise they carry the parsed datetime
with its timezone-awareness. -/
structure ImageData where
  name : String
  tags : List String
  tag : String
  created_at : Option ParsedDate
  last_modified : Option ParsedDate
  size : Int
  is_deployed : Bool
  rank : Int
deriving Repr, DecidableEq

/-- Seconds in a day: `timedelta(days = n)` is exactly `n * 86400` seconds. -/
def secondsPerDay : Int := 86400

/-- Embeds `RuleEngine._check_age_rule`.  The cutoff
`datetime.utcnow() - timedelta(days=max_age_days)` is always offset-naive,
and the normalization guard `if image_date.tzinfo is None` only strips the
already-naive case (a no-op): a timezone-aware parsed creation date is
compared aware-vs-naive, which raises `TypeError`; the surrounding `except`
turns that into `False`.  So: absent/unparseable date ⇒ false; aware date ⇒
false (via the swallowed `TypeError`); naive date ⇒ strictly earlier than
`now - max_age_days` days. -/
def check_age_rule (now : Int) (img : ImageData) (c : Conditions) : Bool :=
  match img.created_at with
  | none => false
  | some d =>
    if d.aware then false
    else decide (d.epoch < now - c.max_age_days * secondsPerDay)

/-- Embeds `RuleEngine._check_modified_rule`: the same cutoff test against
the last-modified timestamp, with the same swallowed aware-vs-naive
`TypeError` path. -/
def check_modified_rule (now : Int) (img : ImageData) (c : Conditions) : Bool :=
  match img.last_modified with
  | none => false
  | some d =>
    if d.aware then false
    else decide (d.epoch < now - c.max_age_days * secondsPerDay)

/-- Embeds `RuleEngine._check_count_rule`: rank 0 means "unset" and never matches;
otherwise true iff the rank exceeds `keep_count`. -/
def check_count_rule (img : ImageData) (c : Conditions) : Bool :=
  if img.rank = 0 then false else decide (img.rank > c.keep_count)

/-- Embeds `RuleEngine._check_size_rule`: size 0 means "unavailable" and never
matches; otherwise true iff the size exceeds `max_size_mb * 1024 * 1024`
bytes. -/
def check_size_rule (img : ImageData) (c : Conditions) : Bool :=
  if img.size = 0 then false
  else decide (img.size > c.max_size_mb * 1024 * 1024)

/-- The tag list `_check_tag_rule` actually iterates: `image_data["tags"]`
when non-empty, else the singleton of `image_data["tag"]` when that string is
truthy, else empty. -/
def effectiveTags (img : ImageData) : List String :=
  if img.tags ≠ [] then img.tags
  else if img.tag ≠ "" then [img.tag] else []

/-- The exclusion scan of `_check_tag_rule`: some tag contains (as a
case-insensitive substring) some entry of `exclude_tags`. -/
def tagListExcluded (tags : List String) (excluded : List String) : Bool :=
  tags.any fun t => excluded.any fun e => strContains (pyLower t) (pyLower e)

/-- The pattern scan of `_check_tag_rule`: some tag contains (as a
case-insensitive substring) some entry of `patterns`. -/
def tagListMatches (tags : List String) (patterns : List String) : Bool :=
  tags.any fun t => patterns.any fun p => strContains (pyLower t) (pyLower p)

/-- Embeds `RuleEngine._check_tag_rule`: no tags ⇒ false; an excluded tag ⇒ false;
else a non-empty `required_patterns` (or, failing that, a non-empty legacy
`tag_patterns`) must be hit by some tag; with both lists empty the rule
matches by default. -/
def check_tag_rule (img : ImageData) (c : Conditions) : Bool :=
  let tags := effectiveTags img
  if tags = [] then false
  else if tagListExcluded tags c.exclude_tags then false
  else if c.required_patterns ≠ [] then tagListMatches tags c.required_patterns
  else if c.tag_patterns ≠ [] then tagListMatches tags c.tag_patterns
  else true

/-- Embeds `RuleEngine._matches_rule`: dispatch on the lower-cased `rule_type`
string; any unrecognized kind evaluates to false. -/
def matches_rule (now : Int) (img : ImageData) (ruleType : String)
    (c : Conditions) : Bool :=
  let rt := pyLower ruleType
  if rt = "age_based" then check_age_rule now img c
  else if rt = "count_based" then check_count_rule img c
  else if rt = "tag_based" then check_tag_rule img c
  else if rt = "size_based" then check_size_rule img c
  else if rt = "modified_based" then check_modified_rule now img c
  else false

/-! ## Rule engine evaluation (`RuleEngine.evaluate_image`)

`evaluate_image` runs a `try`/`except` around each rule: a rule whose
evaluation raises is logged and skipped (`continue`) and the remaining rules
are still evaluated.  The per-rule body is abstracted as a function into
`MatchOutcome` so that both the normal path (`ok`) and a raising rule
(`exn`) are representable. -/

/-- An active rule as serialized by `RuleEngine.get_active_rules`. -/
structure ActiveRule where
  id : Int
  name : String
  rule_type : String
  conditions : Conditions
deriving Repr, DecidableEq

/-- Outcome of evaluating one rule inside the `try` block of
`evaluate_image`: a boolean match result, or an exception. -/
inductive MatchOutcome where
  | ok (b : Bool)
  | exn (msg : String)
deriving Repr, DecidableEq

/-- The `for rule in active_rules` loop of `evaluate_image`: append the rule
when its evaluation returns true, skip it when it returns false, and skip it
(`except ... continue`) when it raises. -/
def evalLoop (runMatch : ActiveRule → MatchOutcome) :
    List ActiveRule → List ActiveRule
  | [] => []
  | r :: rs =>
    match runMatch r with
    | .ok true => r :: evalLoop runMatch rs
    | .ok false => evalLoop runMatch rs
    | .exn _ => evalLoop runMatch rs

/-- Embeds `RuleEngine.evaluate_image`: a deployed image short-circuits to the empty
match list; otherwise every active rule is evaluated through `evalLoop`. -/
def evaluate_image (img : ImageData) (rules : List ActiveRule)
    (runMatch : ActiveRule → MatchOutcome) : List ActiveRule :=
  if img.is_deployed then [] else evalLoop runMatch rules

/-- The concrete per-rule body used when no exception occurs: run
`matches_rule` on the rule's own type and conditions. -/
def runMatchPure (now : Int) (img : ImageData) (r : ActiveRule) :
    MatchOutcome :=
  .ok (matches_rule now img r.rule_type r.conditions)

/-! ## Deletion proposal store (`app/workers/rule_evaluation_worker.py`)

`RuleEvaluationWorker.deletion_proposals` is a plain in-memory list of
dicts.  `_create_deletion_proposal` appends a new pending proposal unless a
pending one already exists for the same `(image_name, tag)` pair;
`approve_deletion_proposal` / `reject_deletion_proposal` look up the first
proposal with a matching id and mutate it in place. -/

/-- Proposal status strings: `"pending_approval"`, `"approved"`,
`"rejected"`, `"failed"`. -/
inductive PStatus where
  | pending_approval
  | approved
  | rejected
  | failed
deriving Repr, DecidableEq

/-- A stored deletion proposal.  The keys that Python adds only on mutation
(`executed_at`, `rejected_at`, `failed_at`, `error`) are `Option` fields that
start out `none`. -/
structure Proposal where
  id : String
  image_name : String
  tag : String
  reason : String
  proposed_at : Int
  status : PStatus
  matching_rule_ids : List Int
  executed_at : Option Int
  rejected_at : Option Int
  failed_at : Option Int
  error : Option String
deriving Repr, DecidableEq

/-- The candidate data `_create_deletion_proposal` receives, plus the
generated id and timestamp. -/
structure Candidate where
  id : String
  image_name : String
  tag : String
  reason : String
  proposed_at : Int
  matching_rule_ids : List Int
deriving Repr, DecidableEq

/-- The fresh proposal dict built at the top of `_create_deletion_proposal`:
always `pending_approval`, mutation-only fields unset. -/
def mkProposal (c : Candidate) : Proposal :=
  { id := c.id
    image_name := c.image_name
    tag := c.tag
    reason := c.reason
    proposed_at := c.proposed_at
    status := PStatus.pending_approval
    matching_rule_ids := c.matching_rule_ids
    executed_at := none
    rejected_at := none
    failed_at := none
    error := none }

/-- The duplicate test of `_create_deletion_proposal`: same image name, same
tag, status still `pending_approval`. -/
def isPendingFor (im tg : String) (p : Proposal) : Bool :=
  decide (p.image_name = im ∧ p.tag = tg ∧
    p.status = PStatus.pending_approval)

/-- Embeds `RuleEvaluationWorker._create_deletion_proposal`: append the fresh
pending proposal unless a pending proposal for the same `(image, tag)` pair
already exists, in which case the store is left untouched. -/
def create_deletion_proposal (store : List Proposal) (c : Candidate) :
    List Proposal :=
  let p := mkProposal c
  if store.any (isPendingFor p.image_name p.tag) then store
  else store ++ [p]

/-- The structured outcome `{success, message}` of the operator-facing
approve/reject operations. -/
structure OpResult where
  success : Bool
  message : String
deriving Repr, DecidableEq

/-- Outcome of `registry_service.delete_image_tag` as seen from
`approve_deletion_proposal`: a boolean result, or a raised exception. -/
inductive ExecOutcome where
  | ok (b : Bool)
  | exn (msg : String)
deriving Repr, DecidableEq

/-- In-place mutation of the first list element satisfying `q`, as Python's
`next(p for p in ... if ...)` followed by mutating the found dict. -/
def updateFirst (f : Proposal → Proposal) (q : Proposal → Bool) :
    List Proposal → List Proposal
  | [] => []
  | p :: ps => if q p then f p :: ps else p :: updateFirst f q ps

/-- Embeds `RuleEvaluationWorker.approve_deletion_proposal`: unknown id or a
non-pending proposal yields `{success := false}` without touching the store;
a pending proposal is executed through the registry service (`exec`), and
its dict is mutated according to the outcome: `ok true` → `approved` with
`executed_at`; `ok false` → `failed` (nothing else recorded); exception →
`failed` with `error` and `failed_at`. -/
def approve_deletion_proposal (store : List Proposal) (pid : String)
    (now : Int) (exec : ExecOutcome) : OpResult × List Proposal :=
  match store.find? (fun p => p.id == pid) with
  | none => ({ success := false, message := "Proposition non trouvée" }, store)
  | some p =>
    if p.status ≠ PStatus.pending_approval then
      ({ success := false, message := "Proposition déjà traitée" }, store)
    else
      match exec with
      | .ok true =>
        ({ success := true, message := "Suppression exécutée avec succès" },
          updateFirst
            (fun q => { q with status := PStatus.approved
                               executed_at := some now })
            (fun q => q.id == pid) store)
      | .ok false =>
        ({ success := false, message := "Échec de la suppression dans le registry" },
          updateFirst (fun q => { q with status := PStatus.failed })
            (fun q => q.id == pid) store)
      | .exn m =>
        ({ success := false, message := "Erreur lors de la suppression: " ++ m },
          updateFirst
            (fun q => { q with status := PStatus.failed
                               error := some m
                               failed_at := some now })
            (fun q => q.id == pid) store)

/-- Embeds `RuleEvaluationWorker.reject_deletion_proposal`: unknown id or a
non-pending proposal yields `{success := false}` without touching the store;
a pending proposal becomes `rejected` with `rejected_at` set. -/
def reject_deletion_proposal (store : List Proposal) (pid : String)
    (now : Int) : OpResult × List Proposal :=
  match store.find? (fun p => p.id == pid) with
  | none => ({ success := false, message := "Proposition non trouvée" }, store)
  | some p =>
    if p.status ≠ PStatus.pending_approval then
      ({ success := false, message := "Proposition déjà traitée" }, store)
    else
      ({ success := true, message := "Proposition rejetée" },
        updateFirst
          (fun q => { q with status := PStatus.rejected
                             rejected_at := some now })
          (fun q => q.id == pid) store)

/-- One mutation of the proposal store, as driven by the scheduler
(`create`) or by operator actions (`approve`, `reject`). -/
inductive StoreOp where
  | create (c : Candidate)
  | approve (pid : String) (now : Int) (exec : ExecOutcome)
  | reject (pid : String) (now : Int)

/-- Apply one store operation to the store (discarding the operator-facing
result). -/
def applyOp (store : List Proposal) : StoreOp → List Proposal
  | .create c => create_deletion_proposal store c
  | .approve pid now exec => (approve_deletion_proposal store pid now exec).2
  | .reject pid now => (reject_deletion_proposal store pid now).2

/-- Run a sequence of store operations from a starting store. -/
def runOps (store : List Proposal) (ops : List StoreOp) : List Proposal :=
  ops.foldl applyOp store

/-- Number of pending proposals stored for a given `(image, tag)` pair. -/
def pendingCount (store : List Proposal) (im tg : String) : Nat :=
  store.countP (isPendingFor im tg)

/-! ## Deletion executor

Two layers.  `RegistryClient.delete_entire_image`
(`app/external/registry_client.py`) removes every tag, triggers garbage
collection, cleans the blob store and computes its own success verdict.
`RegistryService.delete_entire_image` (`app/services/registry_service.py`)
pre-checks existence / deployment / confirmation, invokes the client,
*discards* the client's result, and re-verifies on its own by re-listing the
tags up to 3 times; its verdict is `verification_passed` alone.

Every registry/blob helper the pipeline calls (`get_image_tags`,
`get_catalog`, `delete_image_tag`, `force_garbage_collection`,
`cleanup_minio_objects`) catches its own exceptions and returns a safe
default (`[]`, `False`, or an error record), so the pipeline is modelled as
a total function of an environment recording what each external call
returns; the service's `except` branches around these calls are dead
given those defaults. -/

/-- The record returned by `RegistryClient.cleanup_minio_objects`. -/
structure MinioCleanup where
  deleted_objects : List String
  errors : List String
  success : Bool
deriving Repr, DecidableEq

/-- What the external world answers during one run of
`RegistryClient.delete_entire_image`: the per-tag outcome of
`delete_image_tag`, the GC verdict, the blob-cleanup record, the tag list
re-read after cleanup, and the catalog listing. -/
structure ClientEnv where
  delete_tag : String → Bool
  gc_success : Bool
  minio : MinioCleanup
  remaining_tags : List String
  catalog : List String

/-- The per-step flags of the client result. -/
structure ClientSteps where
  registry_api : Bool
  garbage_collection : Bool
  minio_cleanup : Bool
  final_verification : Bool
deriving Repr, DecidableEq

/-- The structured result of `RegistryClient.delete_entire_image`. -/
structure ClientResult where
  success : Bool
  deleted_tags : List String
  errors : List String
  remaining_tags : List String
  image_in_catalog : Bool
  garbage_collection_success : Bool
  minio_cleanup : MinioCleanup
  steps : ClientSteps
deriving Repr, DecidableEq

/-- Embeds `RegistryClient.delete_entire_image`: delete every tag, run GC and blob
cleanup, then compute `overall_success = registry_success ∧ no remaining
tags ∧ image not in catalog`.  Note that at this layer catalog presence
*does* veto success. -/
def client_delete_entire_image (env : ClientEnv) (image_name : String)
    (tags : List String) : ClientResult :=
  let deleted_tags := tags.filter env.delete_tag
  let errors := (tags.filter fun t => !env.delete_tag t).map
    fun t => "Échec de suppression du tag " ++ image_name ++ ":" ++ t
  let image_in_catalog := env.catalog.contains image_name
  let registry_success := deleted_tags.length == tags.length
  let no_remaining_tags := env.remaining_tags.isEmpty
  let not_in_catalog := !image_in_catalog
  { success := registry_success && no_remaining_tags && not_in_catalog
    deleted_tags := deleted_tags
    errors := errors
    remaining_tags := env.remaining_tags
    image_in_catalog := image_in_catalog
    garbage_collection_success := env.gc_success
    minio_cleanup := env.minio
    steps :=
      { registry_api := registry_success
        garbage_collection := env.gc_success
        minio_cleanup := env.minio.success
        final_verification := not_in_catalog && no_remaining_tags } }

/-- One entry of `get_images_with_deployment_status`, as consulted by the
service's deployment pre-check. -/
structure DeployTarget where
  name : String
  is_deployed : Bool
  deployed_tags : List String
deriving Repr, DecidableEq

/-- What the external world answers during one run of
`RegistryService.delete_entire_image`: the pre-check tag listing, the
deployment listing, the client's environment, the tag listing returned at
each of the (up to 3) verification attempts, the extra listing taken when
verification fails, and the database update outcome (the image row being
found, and the update call completing). -/
structure ServiceEnv where
  initial_tags : List String
  images_with_status : List DeployTarget
  clientEnv : ClientEnv
  verify : Nat → List String
  final_read : List String
  db_found : Bool
  db_update_ok : Bool

/-- Which return statement of `RegistryService.delete_entire_image`
produced the result. -/
inductive ServiceBranch where
  | not_found
  | deployed_conflict
  | confirmation_required
  | deleted_ok
  | tags_remaining
deriving Repr, DecidableEq

/-- The result of `RegistryService.delete_entire_image`, with the
branch-specific Python dict keys unified into one record (absent list/flag
keys read as `[]`/`false`). -/
structure ServiceResult where
  success : Bool
  branch : ServiceBranch
  deleted_tags : List String
  remaining_tags : List String
  database_updated : Bool
  verification_passed : Bool
deriving Repr, DecidableEq

/-- The `for attempt in range(max_retries)` verification loop of the
service: re-list the tags; an empty listing sets `verification_passed` and
breaks; otherwise try again, up to `fuel` attempts in total. -/
def verification_loop (verify : Nat → List String) :
    Nat → Nat → Bool
  | _, 0 => false
  | attempt, fuel + 1 =>
    if (verify attempt).isEmpty then true
    else verification_loop verify (attempt + 1) fuel

/-- Embeds `RegistryService.delete_entire_image`: refuse when the image has no
tags, when its deployment entry is marked deployed, or when the operator has
not confirmed; otherwise run the client pipeline (whose result is bound and
then never read), verify with up to 3 re-listings, update the database
best-effort, and succeed iff the verification loop saw an empty tag list.
The catalog is never consulted at this layer. -/
def service_delete_entire_image (env : ServiceEnv) (image_name : String)
    (user_confirmed : Bool) : ServiceResult :=
  let tags := env.initial_tags
  if tags.isEmpty then
    { success := false, branch := ServiceBranch.not_found
      deleted_tags := [], remaining_tags := []
      database_updated := false, verification_passed := false }
  else
    let target := env.images_with_status.find? fun i => i.name == image_name
    let target_deployed := match target with
      | some t => t.is_deployed
      | none => false
    if target_deployed then
      { success := false, branch := ServiceBranch.deployed_conflict
        deleted_tags := [], remaining_tags := []
        database_updated := false, verification_passed := false }
    else if !user_confirmed then
      { success := false, branch := ServiceBranch.confirmation_required
        deleted_tags := [], remaining_tags := []
        database_updated := false, verification_passed := false }
    else
      let _result := client_delete_entire_image env.clientEnv image_name tags
      let verification_passed := verification_loop env.verify 0 3
      let db_update_success := env.db_found && env.db_update_ok
      if verification_passed then
        { success := true, branch := ServiceBranch.deleted_ok
          deleted_tags := tags, remaining_tags := []
          database_updated := db_update_success
          verification_passed := true }
      else
        { success := false, branch := ServiceBranch.tags_remaining
          deleted_tags := [], remaining_tags := env.final_read
          database_updated := db_update_success
          verification_passed := false }

/-! ## Shared lemmas -/

/-- Dispatching `matches_rule` on the literal kind `"tag_based"` runs the
tag check. -/
theorem matches_rule_tag (now : Int) (img : ImageData) (c : Conditions) :
    matches_rule now img "tag_based" c = check_tag_rule img c := rfl

/-! ## C3 — deployed images are vetoed -/

/-- C3: for every image snapshot with `deployed = true`, `evaluate_image`
returns the empty match list immediately, whatever the active rules are and
however each rule would evaluate. -/
theorem deployed_veto_empty_eval (img : ImageData) (rules : List ActiveRule)
    (runMatch : ActiveRule → MatchOutcome) (h : img.is_deployed = true) :
    evaluate_image img rules runMatch = [] := by
  simp [evaluate_image, h]

/-- Witness for C3 at a concrete deployed snapshot with a rule whose
conditions would otherwise match. -/
theorem deployed_veto_empty_eval_witness :
    evaluate_image
      { name := "app/api", tags := ["old"], tag := "old"
        created_at := some { epoch := 0, aware := false }
        last_modified := none, size := 5
        is_deployed := true, rank := 0 }
      [{ id := 1, name := "old images", rule_type := "age_based"
         conditions := { max_age_days := 30, keep_count := 10
                         max_size_mb := 1024, exclude_tags := []
                         required_patterns := [], tag_patterns := [] } }]
      (runMatchPure 10000000000
        { name := "app/api", tags := ["old"], tag := "old"
          created_at := some { epoch := 0, aware := false }
          last_modified := none, size := 5
          is_deployed := true, rank := 0 }) = [] :=
  deployed_veto_empty_eval _ _ _ rfl

/-! ## C9 — unknown rule kinds never match and never raise -/

/-- C9: for every snapshot and every rule whose (lower-cased) kind is none
of the five recognized kinds, `matches_rule` returns false.  `matches_rule`
is a total Lean function, so no error can be raised. -/
theorem unknown_rule_kind_matches_false (now : Int) (img : ImageData)
    (ruleType : String) (c : Conditions)
    (h : pyLower ruleType ∉
      (["age_based", "count_based", "tag_based", "size_based",
        "modified_based"] : List String)) :
    matches_rule now img ruleType c = false := by
  have h1 : ¬ pyLower ruleType = "age_based" := fun hh => h (by simp [hh])
  have h2 : ¬ pyLower ruleType = "count_based" := fun hh => h (by simp [hh])
  have h3 : ¬ pyLower ruleType = "tag_based" := fun hh => h (by simp [hh])
  have h4 : ¬ pyLower ruleType = "size_based" := fun hh => h (by simp [hh])
  have h5 : ¬ pyLower ruleType = "modified_based" := fun hh => h (by simp [hh])
  unfold matches_rule
  simp [h1, h2, h3, h4, h5]

/-- Witness for C9 at the unrecognized rule kind `"frobnicate"`. -/
theorem unknown_rule_kind_matches_false_witness :
    matches_rule 0
      { name := "a", tags := ["t"], tag := "t"
        created_at := some { epoch := 0, aware := false }
        last_modified := some { epoch := 0, aware := false }
        size := 10, is_deployed := false
        rank := 3 }
      "frobnicate"
      { max_age_days := 0, keep_count := 0, max_size_mb := 0
        exclude_tags := [], required_patterns := [], tag_patterns := [] }
      = false :=
  unknown_rule_kind_matches_false 0 _ "frobnicate" _ (by decide)

/-! ## C6 — the age rule (code bug)

The claim (and spec §4.1) say a present, parseable creation timestamp
strictly older than `now - max_age_days` days always matches.  The code's
normalization guard at `rule_engine.py:293-295` is inverted: it strips
`tzinfo` only when the parsed date is *already* naive (a no-op), so a
timezone-aware parsed date — what `_parse_date` produces for every standard
`"...Z"` / `"...+00:00"` registry timestamp — is compared against the naive
cutoff, raises `TypeError`, and the handler returns `False` regardless of
age.  The intent is plain (the naive branch implements exactly the
documented test, and a no-op normalization cannot be deliberate), so the
claim is right and the code is wrong. -/

/-- C6 (code bug, evaluated at the failing input): a creation timestamp 31
days before now with `max_age_days = 30` returns false when the parsed date
is timezone-aware (the swallowed `TypeError` path), while the identical
naive timestamp matches; the only difference between the two inputs is the
timezone-awareness flag. -/
theorem age_rule_aware_timestamp_bug :
    matches_rule 1000000000
      { name := "app/api", tags := ["old"], tag := "old"
        created_at := some { epoch := 1000000000 - 31 * secondsPerDay
                             aware := true }
        last_modified := none, size := 0, is_deployed := false, rank := 0 }
      "age_based"
      { max_age_days := 30, keep_count := 10, max_size_mb := 1024
        exclude_tags := [], required_patterns := [], tag_patterns := [] }
      = false ∧
    matches_rule 1000000000
      { name := "app/api", tags := ["old"], tag := "old"
        created_at := some { epoch := 1000000000 - 31 * secondsPerDay
                             aware := false }
        last_modified := none, size := 0, is_deployed := false, rank := 0 }
      "age_based"
      { max_age_days := 30, keep_count := 10, max_size_mb := 1024
        exclude_tags := [], required_patterns := [], tag_patterns := [] }
      = true := by
  refine ⟨by decide, by decide⟩

/-! ## C7 — tag exclusion always wins -/

/-- C7: if any tag of the snapshot's tag set (the `tags` list, or the
`tag`-field fallback `_check_tag_rule` substitutes when that list is empty)
contains (case-insensitive substring) any `exclude_tags` entry, the TagBased
rule evaluates to false unconditionally — in particular even when
`required_patterns` would match another tag. -/
theorem tag_exclusion_vetoes (now : Int) (img : ImageData) (c : Conditions)
    (t e : String) (ht : t ∈ effectiveTags img) (he : e ∈ c.exclude_tags)
    (hc : strContains (pyLower t) (pyLower e) = true) :
    matches_rule now img "tag_based" c = false := by
  rw [matches_rule_tag]
  have hne : effectiveTags img ≠ [] := by
    intro h
    rw [h] at ht
    exact absurd ht (List.not_mem_nil t)
  have hexcl : tagListExcluded (effectiveTags img) c.exclude_tags = true := by
    unfold tagListExcluded
    rw [List.any_eq_true]
    refine ⟨t, ht, ?_⟩
    rw [List.any_eq_true]
    exact ⟨e, he, hc⟩
  unfold check_tag_rule
  simp [hne, hexcl]

/-- Witness for C7: the tag set `["release-latest"]` with
`exclude_tags = ["latest"]` never matches, even though
`required_patterns = ["release"]` would match that very tag. -/
theorem tag_exclusion_vetoes_witness :
    matches_rule 0
      { name := "a", tags := ["release-latest"], tag := ""
        created_at := none, last_modified := none, size := 0
        is_deployed := false, rank := 0 }
      "tag_based"
      { max_age_days := 30, keep_count := 10, max_size_mb := 1000
        exclude_tags := ["latest"], required_patterns := ["release"]
        tag_patterns := [] }
      = false :=
  tag_exclusion_vetoes 0 _ _ "release-latest" "latest"
    (by simp [effectiveTags]) (by simp) (by decide)

/-! ## C8 — required patterns (corrected)

The claim states that with no excluded tag and an empty `required_patterns`
the rule always matches.  The code disagrees twice: a snapshot with no tags
at all evaluates to false before any pattern is consulted, and when
`required_patterns` is empty a non-empty legacy `tag_patterns` list takes
over and must be hit by some tag. -/

/-- C8 counterexample: a snapshot whose single tag is `"bar"`, with no
exclusions and empty `required_patterns` but legacy
`tag_patterns = ["foo"]`, does not match — the claim as stated predicts
true. -/
theorem tag_rule_empty_required_counterexample :
    (({ max_age_days := 30, keep_count := 10, max_size_mb := 1000
        exclude_tags := [], required_patterns := []
        tag_patterns := ["foo"] } : Conditions).required_patterns = []) ∧
    tagListExcluded
      (effectiveTags
        { name := "app", tags := ["bar"], tag := "", created_at := none
          last_modified := none, size := 0, is_deployed := false
          rank := 0 })
      ([] : List String) = false ∧
    matches_rule 0
      { name := "app", tags := ["bar"], tag := "", created_at := none
        last_modified := none, size := 0, is_deployed := false, rank := 0 }
      "tag_based"
      { max_age_days := 30, keep_count := 10, max_size_mb := 1000
        exclude_tags := [], required_patterns := []
        tag_patterns := ["foo"] }
      = false := by
  refine ⟨rfl, by decide, by decide⟩

/-- C8 amended: for every snapshot whose effective tag list is non-empty
and not excluded, a non-empty `required_patterns` makes the rule match iff
some tag contains at least one required pattern; an empty
`required_patterns` makes the rule match by default only when the legacy
`tag_patterns` list is also empty, and otherwise iff some tag contains one
of the legacy patterns. -/
theorem tag_rule_required_patterns_amended (now : Int) (img : ImageData)
    (c : Conditions) (hne : effectiveTags img ≠ [])
    (hexcl : tagListExcluded (effectiveTags img) c.exclude_tags = false) :
    (c.required_patterns ≠ [] →
      (matches_rule now img "tag_based" c = true ↔
        ∃ t ∈ effectiveTags img, ∃ p ∈ c.required_patterns,
          strContains (pyLower t) (pyLower p) = true)) ∧
    (c.required_patterns = [] → c.tag_patterns = [] →
      matches_rule now img "tag_based" c = true) ∧
    (c.required_patterns = [] → c.tag_patterns ≠ [] →
      (matches_rule now img "tag_based" c = true ↔
        ∃ t ∈ effectiveTags img, ∃ p ∈ c.tag_patterns,
          strContains (pyLower t) (pyLower p) = true)) := by
  rw [matches_rule_tag]
  unfold check_tag_rule
  refine ⟨?_, ?_, ?_⟩
  · intro hreq
    simp [hne, hexcl, hreq, tagListMatches, List.any_eq_true]
  · intro hreq htp
    simp [hne, hexcl, hreq, htp]
  · intro hreq htp
    simp [hne, hexcl, hreq, htp, tagListMatches, List.any_eq_true]

/-- Witness for the amended C8: tag `"dev-1"`, `exclude_tags = ["latest"]`,
`required_patterns = ["dev"]` matches. -/
theorem tag_rule_required_patterns_amended_witness :
    matches_rule 0
      { name := "a", tags := ["dev-1"], tag := "", created_at := none
        last_modified := none, size := 0, is_deployed := false, rank := 0 }
      "tag_based"
      { max_age_days := 30, keep_count := 10, max_size_mb := 1000
        exclude_tags := ["latest"], required_patterns := ["dev"]
        tag_patterns := [] }
      = true :=
  ((tag_rule_required_patterns_amended 0 _ _ (by decide) (by decide)).1
      (by decide)).mpr
    ⟨"dev-1", by simp [effectiveTags], "dev", by simp, by decide⟩

/-! ## C10 — a raising rule is skipped, the rest still evaluated -/

/-- C10: for a non-deployed snapshot, a rule whose evaluation raises is
simply skipped: the evaluation result is exactly the result of evaluating
the remaining rules (those before it and those after it), so one malformed
rule neither aborts the evaluation nor masks the other rules' matches.
`evaluate_image` is a total Lean function, so the evaluation itself never
raises. -/
theorem evaluate_skips_raising_rule (img : ImageData)
    (rs1 rs2 : List ActiveRule) (bad : ActiveRule)
    (runMatch : ActiveRule → MatchOutcome) (msg : String)
    (hdep : img.is_deployed = false)
    (hbad : runMatch bad = MatchOutcome.exn msg) :
    evaluate_image img (rs1 ++ bad :: rs2) runMatch =
      evaluate_image img (rs1 ++ rs2) runMatch := by
  simp only [evaluate_image, hdep, Bool.false_eq_true, if_false]
  induction rs1 with
  | nil =>
    simp [evalLoop, hbad]
  | cons r rs ih =>
    cases h : runMatch r with
    | ok b => cases b <;> simp [evalLoop, h, ih]
    | exn m => simp [evalLoop, h, ih]

/-- Witness for C10: a three-rule list whose middle rule raises evaluates
exactly like the two-rule list without it. -/
theorem evaluate_skips_raising_rule_witness :
    evaluate_image
      { name := "a", tags := ["t"], tag := "t", created_at := none
        last_modified := none, size := 0, is_deployed := false, rank := 0 }
      ([{ id := 1, name := "r1", rule_type := "tag_based"
          conditions := { max_age_days := 30, keep_count := 10
                          max_size_mb := 1000, exclude_tags := []
                          required_patterns := [], tag_patterns := [] } }] ++
        { id := 99, name := "bad", rule_type := "tag_based"
          conditions := { max_age_days := 30, keep_count := 10
                          max_size_mb := 1000, exclude_tags := []
                          required_patterns := [], tag_patterns := [] } } ::
        [{ id := 2, name := "r2", rule_type := "tag_based"
           conditions := { max_age_days := 30, keep_count := 10
                           max_size_mb := 1000, exclude_tags := []
                           required_patterns := [], tag_patterns := [] } }])
      (fun r => if r.id == 99 then MatchOutcome.exn "boom"
                else MatchOutcome.ok true) =
    evaluate_image
      { name := "a", tags := ["t"], tag := "t", created_at := none
        last_modified := none, size := 0, is_deployed := false, rank := 0 }
      ([{ id := 1, name := "r1", rule_type := "tag_based"
          conditions := { max_age_days := 30, keep_count := 10
                          max_size_mb := 1000, exclude_tags := []
                          required_patterns := [], tag_patterns := [] } }] ++
        [{ id := 2, name := "r2", rule_type := "tag_based"
           conditions := { max_age_days := 30, keep_count := 10
                           max_size_mb := 1000, exclude_tags := []
                           required_patterns := [], tag_patterns := [] } }])
      (fun r => if r.id == 99 then MatchOutcome.exn "boom"
                else MatchOutcome.ok true) :=
  evaluate_skips_raising_rule _ _ _ _ _ "boom" rfl (by decide)

/-! ## C4 — approve/reject on a non-pending or unknown proposal -/

/-- C4: for every proposal that is not pending (approved, rejected or
failed) and for every unknown proposal id, both approve and reject return
`{success := false}` and leave the store — hence every field of every
proposal — unchanged. -/
theorem nonpending_approve_reject_noop (store : List Proposal) (pid : String)
    (now : Int) (exec : ExecOutcome)
    (h : store.find? (fun p => p.id == pid) = none ∨
      ∃ p, store.find? (fun p => p.id == pid) = some p ∧
        p.status ≠ PStatus.pending_approval) :
    ((approve_deletion_proposal store pid now exec).1.success = false ∧
      (approve_deletion_proposal store pid now exec).2 = store) ∧
    ((reject_deletion_proposal store pid now).1.success = false ∧
      (reject_deletion_proposal store pid now).2 = store) := by
  rcases h with hnone | ⟨p, hfind, hp⟩
  · unfold approve_deletion_proposal reject_deletion_proposal
    rw [hnone]
    exact ⟨⟨rfl, rfl⟩, ⟨rfl, rfl⟩⟩
  · unfold approve_deletion_proposal reject_deletion_proposal
    rw [hfind]
    simp [hp]

/-- Witness for C4: approve and reject on a concrete rejected proposal. -/
theorem nonpending_approve_reject_noop_witness :
    ((approve_deletion_proposal
        [{ id := "p1", image_name := "app", tag := "v1", reason := "r"
           proposed_at := 0, status := PStatus.rejected
           matching_rule_ids := [], executed_at := none
           rejected_at := some 1, failed_at := none, error := none }]
        "p1" 5 (ExecOutcome.ok true)).1.success = false ∧
      (approve_deletion_proposal
        [{ id := "p1", image_name := "app", tag := "v1", reason := "r"
           proposed_at := 0, status := PStatus.rejected
           matching_rule_ids := [], executed_at := none
           rejected_at := some 1, failed_at := none, error := none }]
        "p1" 5 (ExecOutcome.ok true)).2 =
        [{ id := "p1", image_name := "app", tag := "v1", reason := "r"
           proposed_at := 0, status := PStatus.rejected
           matching_rule_ids := [], executed_at := none
           rejected_at := some 1, failed_at := none, error := none }]) ∧
    ((reject_deletion_proposal
        [{ id := "p1", image_name := "app", tag := "v1", reason := "r"
           proposed_at := 0, status := PStatus.rejected
           matching_rule_ids := [], executed_at := none
           rejected_at := some 1, failed_at := none, error := none }]
        "p1" 5).1.success = false ∧
      (reject_deletion_proposal
        [{ id := "p1", image_name := "app", tag := "v1", reason := "r"
           proposed_at := 0, status := PStatus.rejected
           matching_rule_ids := [], executed_at := none
           rejected_at := some 1, failed_at := none, error := none }]
        "p1" 5).2 =
        [{ id := "p1", image_name := "app", tag := "v1", reason := "r"
           proposed_at := 0, status := PStatus.rejected
           matching_rule_ids := [], executed_at := none
           rejected_at := some 1, failed_at := none, error := none }]) :=
  nonpending_approve_reject_noop _ "p1" 5 (ExecOutcome.ok true)
    (Or.inr ⟨_, rfl, by decide⟩)

/-! ## C5 — approving a pending proposal (corrected)

The claim says that on any executor failure the proposal gets an error
text.  The code records an error text only when the executor *raises*; when
`delete_image_tag` merely returns a falsy result the proposal is marked
`failed` with no error text (and no `failed_at`). -/

/-- Lemma: `updateFirst` rewrites exactly the first element matched by `q`; if `f`
preserves `q`-membership, looking the element up again yields its updated
form. -/
theorem find?_updateFirst (f : Proposal → Proposal) (q : Proposal → Bool)
    (hq : ∀ x, q (f x) = q x) (l : List Proposal) (p : Proposal)
    (h : l.find? q = some p) :
    (updateFirst f q l).find? q = some (f p) := by
  induction l with
  | nil => simp at h
  | cons x xs ih =>
    rw [List.find?_cons] at h
    unfold updateFirst
    cases hx : q x with
    | true =>
      rw [hx] at h
      simp at h
      subst h
      simp only [hx, if_true]
      rw [List.find?_cons, hq, hx]
    | false =>
      rw [hx] at h
      simp at h
      simp only [hx, Bool.false_eq_true, if_false]
      rw [List.find?_cons, hx]
      exact ih h

/-- C5 counterexample: approving a concrete pending proposal whose executor
returns false (no exception) marks it `failed` but records *no* error text,
contradicting the claim that every failure mode sets an error text. -/
theorem approve_failed_no_error_counterexample :
    ((approve_deletion_proposal
        [{ id := "p1", image_name := "app", tag := "v1", reason := "r"
           proposed_at := 0, status := PStatus.pending_approval
           matching_rule_ids := [], executed_at := none
           rejected_at := none, failed_at := none, error := none }]
        "p1" 5 (ExecOutcome.ok false)).2.map Proposal.status =
      [PStatus.failed]) ∧
    ((approve_deletion_proposal
        [{ id := "p1", image_name := "app", tag := "v1", reason := "r"
           proposed_at := 0, status := PStatus.pending_approval
           matching_rule_ids := [], executed_at := none
           rejected_at := none, failed_at := none, error := none }]
        "p1" 5 (ExecOutcome.ok false)).2.map Proposal.error =
      [(none : Option String)]) ∧
    (approve_deletion_proposal
        [{ id := "p1", image_name := "app", tag := "v1", reason := "r"
           proposed_at := 0, status := PStatus.pending_approval
           matching_rule_ids := [], executed_at := none
           rejected_at := none, failed_at := none, error := none }]
        "p1" 5 (ExecOutcome.ok false)).1.success = false := by
  refine ⟨by decide, by decide, by decide⟩

/-- C5 amended: approving a pending proposal invokes the executor; on
executor success the proposal becomes `approved` with `executed_at` set; on
a falsy executor result it becomes `failed` with every other field —
including the error text — unchanged; on an executor exception it becomes
`failed` with the error text and `failed_at` set.  The outcome is `{success
:= true}` only in the first case. -/
theorem approve_pending_outcomes (store : List Proposal) (pid : String)
    (now : Int) (p : Proposal) (m : String)
    (hfind : store.find? (fun x => x.id == pid) = some p)
    (hp : p.status = PStatus.pending_approval) :
    ((approve_deletion_proposal store pid now (ExecOutcome.ok true)).1.success
        = true ∧
      (approve_deletion_proposal store pid now
          (ExecOutcome.ok true)).2.find? (fun x => x.id == pid) =
        some { p with status := PStatus.approved
                      executed_at := some now }) ∧
    ((approve_deletion_proposal store pid now (ExecOutcome.ok false)).1.success
        = false ∧
      (approve_deletion_proposal store pid now
          (ExecOutcome.ok false)).2.find? (fun x => x.id == pid) =
        some { p with status := PStatus.failed }) ∧
    ((approve_deletion_proposal store pid now (ExecOutcome.exn m)).1.success
        = false ∧
      (approve_deletion_proposal store pid now
          (ExecOutcome.exn m)).2.find? (fun x => x.id == pid) =
        some { p with status := PStatus.failed
                      error := some m
                      failed_at := some now }) := by
  unfold approve_deletion_proposal
  rw [hfind]
  have hcond : ¬ p.status ≠ PStatus.pending_approval := by simp [hp]
  simp only [if_neg hcond]
  exact
    ⟨⟨trivial, find?_updateFirst
        (fun q => { q with status := PStatus.approved
                           executed_at := some now })
        (fun x => x.id == pid) (fun x => rfl) store p hfind⟩,
     ⟨trivial, find?_updateFirst
        (fun q => { q with status := PStatus.failed })
        (fun x => x.id == pid) (fun x => rfl) store p hfind⟩,
     ⟨trivial, find?_updateFirst
        (fun q => { q with status := PStatus.failed
                           error := some m
                           failed_at := some now })
        (fun x => x.id == pid) (fun x => rfl) store p hfind⟩⟩

/-- Witness for the amended C5 at a concrete pending proposal, for the
three executor outcomes. -/
theorem approve_pending_outcomes_witness :
    (approve_deletion_proposal
        [{ id := "p1", image_name := "app", tag := "v1", reason := "r"
           proposed_at := 0, status := PStatus.pending_approval
           matching_rule_ids := [], executed_at := none
           rejected_at := none, failed_at := none, error := none }]
        "p1" 7 (ExecOutcome.ok true)).1.success = true ∧
    (approve_deletion_proposal
        [{ id := "p1", image_name := "app", tag := "v1", reason := "r"
           proposed_at := 0, status := PStatus.pending_approval
           matching_rule_ids := [], executed_at := none
           rejected_at := none, failed_at := none, error := none }]
        "p1" 7 (ExecOutcome.ok false)).1.success = false ∧
    (approve_deletion_proposal
        [{ id := "p1", image_name := "app", tag := "v1", reason := "r"
           proposed_at := 0, status := PStatus.pending_approval
           matching_rule_ids := [], executed_at := none
           rejected_at := none, failed_at := none, error := none }]
        "p1" 7 (ExecOutcome.exn "network down")).1.success = false := by
  have h := approve_pending_outcomes
    [{ id := "p1", image_name := "app", tag := "v1", reason := "r"
       proposed_at := 0, status := PStatus.pending_approval
       matching_rule_ids := [], executed_at := none
       rejected_at := none, failed_at := none, error := none }]
    "p1" 7
    { id := "p1", image_name := "app", tag := "v1", reason := "r"
      proposed_at := 0, status := PStatus.pending_approval
      matching_rule_ids := [], executed_at := none
      rejected_at := none, failed_at := none, error := none }
    "network down" rfl rfl
  exact ⟨h.1.1, h.2.1.1, h.2.2.1⟩

/-! ## C2 — at most one pending proposal per (image, tag) -/

/-- The per-(image, tag) uniqueness property of the proposal store. -/
def PendingUnique (store : List Proposal) : Prop :=
  ∀ im tg, pendingCount store im tg ≤ 1

/-- Rewriting the first matched element with a function whose output never
satisfies `pred` cannot increase the number of `pred`-elements. -/
theorem countP_updateFirst_le (f : Proposal → Proposal)
    (q pred : Proposal → Bool) (hf : ∀ x, pred (f x) = false)
    (l : List Proposal) :
    (updateFirst f q l).countP pred ≤ l.countP pred := by
  induction l with
  | nil => simp [updateFirst]
  | cons x xs ih =>
    unfold updateFirst
    cases hx : q x with
    | true =>
      simp only [hx, if_true, List.countP_cons, hf, Bool.false_eq_true,
        if_false]
      omega
    | false =>
      simp only [hx, Bool.false_eq_true, if_false, List.countP_cons]
      omega

/-- Creation preserves pending uniqueness: `create_deletion_proposal` preserves pending uniqueness. -/
theorem create_preserves_unique (s : List Proposal) (c : Candidate)
    (h : PendingUnique s) :
    PendingUnique (create_deletion_proposal s c) := by
  intro im tg
  unfold create_deletion_proposal
  by_cases hex :
      s.any (isPendingFor (mkProposal c).image_name (mkProposal c).tag) = true
  · rw [if_pos hex]
    exact h im tg
  · rw [if_neg hex]
    unfold pendingCount
    rw [List.countP_append]
    by_cases hnew : isPendingFor im tg (mkProposal c) = true
    · obtain ⟨hkim, hktg, -⟩ := of_decide_eq_true hnew
      have hzero : s.countP (isPendingFor im tg) = 0 := by
        rw [List.countP_eq_zero]
        intro p hp hpend
        apply hex
        rw [List.any_eq_true]
        refine ⟨p, hp, ?_⟩
        have hv := of_decide_eq_true hpend
        refine decide_eq_true ⟨?_, ?_, hv.2.2⟩
        · rw [hv.1]
          exact hkim.symm
        · rw [hv.2.1]
          exact hktg.symm
      have hone : List.countP (isPendingFor im tg) [mkProposal c] = 1 := by
        simp [List.countP_cons, hnew]
      rw [hzero, hone]
    · have hb : isPendingFor im tg (mkProposal c) = false := by
        simpa using hnew
      have hzero1 : List.countP (isPendingFor im tg) [mkProposal c] = 0 := by
        simp [List.countP_cons, hb]
      rw [hzero1]
      have := h im tg
      unfold pendingCount at this
      omega

/-- Approval preserves pending uniqueness: it only ever
moves one proposal out of the pending status. -/
theorem approve_preserves_unique (s : List Proposal) (pid : String)
    (now : Int) (exec : ExecOutcome) (h : PendingUnique s) :
    PendingUnique (approve_deletion_proposal s pid now exec).2 := by
  intro im tg
  unfold approve_deletion_proposal
  cases hfind : s.find? (fun p => p.id == pid) with
  | none => exact h im tg
  | some p =>
    dsimp only
    by_cases hp : p.status ≠ PStatus.pending_approval
    · rw [if_pos hp]
      exact h im tg
    · rw [if_neg hp]
      cases exec with
      | ok b =>
        cases b
        · exact le_trans
            (countP_updateFirst_le _ _ _ (fun x => by simp [isPendingFor]) s)
            (h im tg)
        · exact le_trans
            (countP_updateFirst_le _ _ _ (fun x => by simp [isPendingFor]) s)
            (h im tg)
      | exn m =>
        exact le_trans
          (countP_updateFirst_le _ _ _ (fun x => by simp [isPendingFor]) s)
          (h im tg)

/-- Rejection preserves pending uniqueness. -/
theorem reject_preserves_unique (s : List Proposal) (pid : String)
    (now : Int) (h : PendingUnique s) :
    PendingUnique (reject_deletion_proposal s pid now).2 := by
  intro im tg
  unfold reject_deletion_proposal
  cases hfind : s.find? (fun p => p.id == pid) with
  | none => exact h im tg
  | some p =>
    dsimp only
    by_cases hp : p.status ≠ PStatus.pending_approval
    · rw [if_pos hp]
      exact h im tg
    · rw [if_neg hp]
      exact le_trans
        (countP_updateFirst_le _ _ _ (fun x => by simp [isPendingFor]) s)
        (h im tg)

/-- Every single store operation preserves pending uniqueness. -/
theorem applyOp_preserves_unique (s : List Proposal) (op : StoreOp)
    (h : PendingUnique s) : PendingUnique (applyOp s op) := by
  cases op with
  | create c => exact create_preserves_unique s c h
  | approve pid now exec => exact approve_preserves_unique s pid now exec h
  | reject pid now => exact reject_preserves_unique s pid now h

/-- Every sequence of store operations preserves pending uniqueness. -/
theorem runOps_preserves_unique (ops : List StoreOp) (s : List Proposal)
    (h : PendingUnique s) : PendingUnique (runOps s ops) := by
  induction ops generalizing s with
  | nil => exact h
  | cons op rest ih => exact ih (applyOp s op) (applyOp_preserves_unique s op h)

/-- C2: for every sequence of proposal-store operations starting from the
empty store, at most one pending proposal exists for a given (image, tag)
pair at any time; and a second `create` for the same (image, tag) while the
first proposal is still pending is a no-op on the store, so exactly one
proposal is stored. -/
theorem pending_uniqueness (ops : List StoreOp) (s : List Proposal)
    (c1 c2 : Candidate) (h1 : c2.image_name = c1.image_name)
    (h2 : c2.tag = c1.tag) :
    (∀ im tg, pendingCount (runOps [] ops) im tg ≤ 1) ∧
    create_deletion_proposal (create_deletion_proposal s c1) c2 =
      create_deletion_proposal s c1 := by
  constructor
  · intro im tg
    exact runOps_preserves_unique ops []
      (fun im tg => by simp [pendingCount]) im tg
  · by_cases hex :
        s.any (isPendingFor (mkProposal c1).image_name (mkProposal c1).tag)
          = true
    · have e1 : create_deletion_proposal s c1 = s := by
        unfold create_deletion_proposal
        simp [hex]
      rw [e1]
      unfold create_deletion_proposal
      have hex2 :
          s.any (isPendingFor (mkProposal c2).image_name (mkProposal c2).tag)
            = true := by
        unfold mkProposal at hex ⊢
        simp only [h1, h2]
        exact hex
      simp [hex2]
    · have e1 : create_deletion_proposal s c1 = s ++ [mkProposal c1] := by
        unfold create_deletion_proposal
        simp [hex]
      rw [e1]
      unfold create_deletion_proposal
      have hex2 :
          (s ++ [mkProposal c1]).any
            (isPendingFor (mkProposal c2).image_name (mkProposal c2).tag)
            = true := by
        rw [List.any_eq_true]
        refine ⟨mkProposal c1, by simp, ?_⟩
        unfold isPendingFor mkProposal
        exact decide_eq_true ⟨h1.symm, h2.symm, rfl⟩
      simp [hex2]

/-- Witness for C2: one create on the empty store, and a double create for
the same `("app", "v1")` pair. -/
theorem pending_uniqueness_witness :
    pendingCount
      (runOps []
        [StoreOp.create
          { id := "id1", image_name := "app", tag := "v1", reason := "r"
            proposed_at := 0, matching_rule_ids := [1] }])
      "app" "v1" ≤ 1 ∧
    create_deletion_proposal
      (create_deletion_proposal []
        { id := "id1", image_name := "app", tag := "v1", reason := "r"
          proposed_at := 0, matching_rule_ids := [1] })
      { id := "id2", image_name := "app", tag := "v1", reason := "r2"
        proposed_at := 9, matching_rule_ids := [2] } =
    create_deletion_proposal []
      { id := "id1", image_name := "app", tag := "v1", reason := "r"
        proposed_at := 0, matching_rule_ids := [1] } := by
  have h := pending_uniqueness
    [StoreOp.create
      { id := "id1", image_name := "app", tag := "v1", reason := "r"
        proposed_at := 0, matching_rule_ids := [1] }]
    []
    { id := "id1", image_name := "app", tag := "v1", reason := "r"
      proposed_at := 0, matching_rule_ids := [1] }
    { id := "id2", image_name := "app", tag := "v1", reason := "r2"
      proposed_at := 9, matching_rule_ids := [2] }
    rfl rfl
  exact ⟨h.1 "app" "v1", h.2⟩

/-! ## C1 — whole-image deletion succeeds on empty tag list, catalog
ignored -/

/-- If one of the three allotted verification attempts sees an empty tag
list, the verification loop reports success. -/
theorem verification_loop_three (verify : Nat → List String)
    (h : verify 0 = [] ∨ verify 1 = [] ∨ verify 2 = []) :
    verification_loop verify 0 3 = true := by
  have e : verification_loop verify 0 3 =
      if (verify 0).isEmpty then true
      else if (verify 1).isEmpty then true
      else if (verify 2).isEmpty then true
      else false := rfl
  rcases h with h | h | h <;> rw [e] <;> simp [h]

/-- Core of C1: when the image exists with tags, its deployment entry is
not deployed, the operator confirmed, and the registry reports an empty tag
list at one of the three verification attempts, the service-level deletion
result is a success through the `deleted_ok` branch. -/
theorem service_delete_success_aux (env : ServiceEnv) (image_name : String)
    (h1 : env.initial_tags ≠ [])
    (h2 : ∀ t, env.images_with_status.find? (fun i => i.name == image_name)
      = some t → t.is_deployed = false)
    (h3 : env.verify 0 = [] ∨ env.verify 1 = [] ∨ env.verify 2 = []) :
    (service_delete_entire_image env image_name true).success = true ∧
    (service_delete_entire_image env image_name true).branch =
      ServiceBranch.deleted_ok := by
  have hne : env.initial_tags.isEmpty = false := by
    cases hts : env.initial_tags with
    | nil => exact absurd hts h1
    | cons a l => rfl
  have hvl : verification_loop env.verify 0 3 = true :=
    verification_loop_three _ h3
  have htd :
      (match env.images_with_status.find? (fun i => i.name == image_name) with
        | some t => t.is_deployed
        | none => false) = false := by
    cases hf : env.images_with_status.find? (fun i => i.name == image_name)
      with
    | none => rfl
    | some t => exact h2 t hf
  unfold service_delete_entire_image
  simp only [hne, Bool.false_eq_true, if_false, htd, Bool.not_true, hvl,
    if_true]
  exact ⟨trivial, trivial⟩

/-- C1: the Deletion Executor's service-level result for a whole-image
deletion has `success = true` whenever the registry reports zero remaining
tags within the 3 verification retries — and this holds for *every* catalog
listing, in particular one that still contains the image name: the
service-level verdict never consults the catalog (the inner client result,
which does gate on the catalog, is discarded). -/
theorem whole_image_delete_success_ignores_catalog (env : ServiceEnv)
    (image_name : String)
    (h1 : env.initial_tags ≠ [])
    (h2 : ∀ t, env.images_with_status.find? (fun i => i.name == image_name)
      = some t → t.is_deployed = false)
    (h3 : ∃ i, i < 3 ∧ env.verify i = []) :
    ((service_delete_entire_image env image_name true).success = true ∧
      (service_delete_entire_image env image_name true).branch =
        ServiceBranch.deleted_ok) ∧
    ∀ cat : List String,
      (service_delete_entire_image
        { env with clientEnv := { env.clientEnv with catalog := cat } }
        image_name true).success = true := by
  have h3' : env.verify 0 = [] ∨ env.verify 1 = [] ∨ env.verify 2 = [] := by
    obtain ⟨i, hi, he⟩ := h3
    interval_cases i
    · exact Or.inl he
    · exact Or.inr (Or.inl he)
    · exact Or.inr (Or.inr he)
  refine ⟨service_delete_success_aux env image_name h1 h2 h3', ?_⟩
  intro cat
  exact (service_delete_success_aux
    { env with clientEnv := { env.clientEnv with catalog := cat } }
    image_name h1 h2 h3').1

/-- Witness for C1: a two-tag image whose verification immediately reports
no tags while the catalog still lists the image name; the result is still a
success. -/
theorem whole_image_delete_success_ignores_catalog_witness :
    (service_delete_entire_image
      { initial_tags := ["v1", "v2"]
        images_with_status :=
          [{ name := "app/api", is_deployed := false, deployed_tags := [] }]
        clientEnv :=
          { delete_tag := fun _ => true
            gc_success := false
            minio := { deleted_objects := [], errors := ["s3 down"]
                       success := false }
            remaining_tags := ["v1"]
            catalog := ["app/api"] }
        verify := fun _ => []
        final_read := []
        db_found := false
        db_update_ok := false }
      "app/api" true).success = true :=
  (whole_image_delete_success_ignores_catalog _ "app/api" (by decide)
    (by
      intro t ht
      injection ht with hh
      rw [← hh])
    ⟨0, by omega, rfl⟩).1.1

end SmartRegistry
